import Mathlib

/-!
Verification of `flo` (src/flo/logger.py and src/flo/templates/__init__.py)
against its natural-language specification, via a shallow embedding.

The logger module is embedded as explicit state passing over a `World`
value holding the process-wide singleton slot (`_logger`), the table of
file handles opened so far, and the text written to the standard output
stream.  Exceptions raised by the Python runtime are modelled as `none`
results.  The color-stripping collaborator `flo.colors.colorless` is an
external pure function (spec §6) and is a universally quantified
parameter of every statement that touches the file sink.

The templating module is embedded over an abstract jinja2 engine record
(jinja2 is an external collaborator, spec §6): what the source code itself
contributes - which environment it constructs, which engine errors it
translates and which it lets propagate - is embedded exactly.
-/

namespace Flo

/-- A run context (`task_graph` in the source): the only field the logger
reads is `abs_log_path`, the resolved log-file path. -/
structure TaskGraph where
  abs_log_path : String
deriving DecidableEq

/-- A Python file object: the path it was opened on, the text written so
far, and whether it has been closed.  `open(path, 'w')` truncates, so a
fresh handle starts with empty contents. -/
structure FileHandle where
  path : String
  contents : String
  isClosed : Bool
deriving DecidableEq

/-- A `Logger` instance (src/flo/logger.py line 17): its only attribute is
`log_file`, here an index into the table of opened handles held by the world. -/
structure Logger where
  log_file : Nat
deriving DecidableEq

/-- The process state the logger module touches: the handles opened so far
(in opening order), the text written to `sys.stdout`, and the module-level
`_logger` singleton slot (src/flo/logger.py line 41, initially `None`). -/
structure World where
  files : List FileHandle
  stdout : String
  logger : Option Logger
deriving DecidableEq

/-- The state of a fresh process: no file opened, nothing on stdout,
`_logger = None`. -/
def World.initial : World := { files := [], stdout := "", logger := none }

/-- One observable side effect of a `write` call, in the order performed. -/
inductive Event where
  | termWrite (s : String)
  | termFlush
  | fileWrite (handle : Nat) (s : String)
deriving DecidableEq

/-- Python `open(path, 'w')`: appends a fresh truncated handle to the table and
returns its index. -/
def openFile (path : String) (w : World) : Nat × World :=
  (w.files.length, { w with files := w.files ++ [⟨path, "", false⟩] })

/-- Constructor `Logger.__init__` (lines 22-23): `self.log_file = open(task_graph.abs_log_path, 'w')`. -/
def Logger.construct (task_graph : TaskGraph) (w : World) : Logger × World :=
  let p := openFile task_graph.abs_log_path w
  (⟨p.1⟩, p.2)

/-- Content accepted by `write`: the source is Python 2, where text is
`unicode` and `bytes` is `str`, a sequence of byte values. -/
inductive Content where
  | text (s : String)
  | bytes (b : List Nat)
deriving DecidableEq

/-- Python 2 `content.decode()` with the default codec (ascii): succeeds exactly
when every byte is below 128, mapping each byte to the character with that
code point; otherwise a `UnicodeDecodeError` propagates (modelled `none`). -/
def decodeDefault (b : List Nat) : Option String :=
  if b.all (fun x => x < 128) then some (String.mk (b.map Char.ofNat)) else none

/-- The text half of `Logger.write` (lines 28-30), after any byte content
has been decoded: write `content` to `sys.stdout`, flush it, then write
`colorless(content)` to the log file.  Writing to a closed handle raises
`ValueError` in Python (modelled `none`).  The call returns `None` in
Python; the model returns the new world plus the ordered event trace. -/
def Logger.writeText (colorless : String → String) (lg : Logger) (content : String)
    (w : World) : Option (World × List Event) :=
  match w.files[lg.log_file]? with
  | none => none
  | some fh =>
    if fh.isClosed then none
    else
      some ({ w with
                stdout := w.stdout ++ content,
                files := w.files.set lg.log_file
                  { fh with contents := fh.contents ++ colorless content } },
            [Event.termWrite content, Event.termFlush,
             Event.fileWrite lg.log_file (colorless content)])

/-- Method `Logger.write` (lines 25-30): byte content is decoded first
(`content.decode()`), then the text path runs. -/
def Logger.write (colorless : String → String) (lg : Logger) (content : Content)
    (w : World) : Option (World × List Event) :=
  match content with
  | Content.text s => Logger.writeText colorless lg s w
  | Content.bytes b =>
    match decodeDefault b with
    | none => none
    | some s => Logger.writeText colorless lg s w

/-- Python 2 `content + '\n'`: `'\n'` is a `str`; appended to text it is
the newline character, appended to bytes it is the byte 10. -/
def Content.appendNewline : Content → Content
  | Content.text s => Content.text (s ++ "\n")
  | Content.bytes b => Content.bytes (b ++ [10])

/-- Method `Logger.info` (lines 32-33): `self.write(content + '\n')`. -/
def Logger.info (colorless : String → String) (lg : Logger) (content : Content)
    (w : World) : Option (World × List Event) :=
  Logger.write colorless lg content.appendNewline w

/-- Method `Logger.close` (lines 35-36): `self.log_file.close()`.  Python file
objects document that `close()` may be called more than once without
error, so the handle is marked closed with no check of its current state;
only a dangling handle index (impossible in runs of this model) fails. -/
def Logger.close (lg : Logger) (w : World) : Option World :=
  match w.files[lg.log_file]? with
  | none => none
  | some fh =>
    some { w with files := w.files.set lg.log_file { fh with isClosed := true } }

/-- Function `get` (lines 44-46): returns the module-level `_logger` slot as it
stands; a pure observation that can never construct a `Logger`. -/
def get (w : World) : Option Logger :=
  w.logger

/-- Function `configure` (lines 49-54): first-writer-wins - if `_logger` is already
set it is returned and the argument ignored; otherwise a new `Logger` is
constructed, stored in the slot and returned. -/
def configure (task_graph : TaskGraph) (w : World) : Logger × World :=
  match w.logger with
  | some lg => (lg, w)
  | none =>
    let p := Logger.construct task_graph w
    (p.1, { p.2 with logger := some p.1 })

/-! ## Templates (src/flo/templates/__init__.py)

jinja2 is an external collaborator; it is embedded as an abstract engine
record.  The decisions made by the module itself - which `Environment` each function
builds, that the string path translates `TemplateSyntaxError` into the
`JinjaError` of the tool while the file path lets engine errors propagate
untranslated - are embedded exactly from the source. -/

/-- The recoverable syntax-error kind of jinja2 (`jinja2.exceptions.TemplateSyntaxError`),
carrying a diagnostic message. -/
structure TemplateSyntaxError where
  message : String
deriving DecidableEq

/-- Modelled from the spec: `flo.exceptions.JinjaError` (imported on line 5
of src/flo/templates/__init__.py from `..exceptions`, a repository module
not present in the fragment).  Spec §6: a templating-specific error kind
that wraps the original engine error for display to the caller. -/
structure JinjaError where
  original : TemplateSyntaxError
deriving DecidableEq

/-- The message a `JinjaError` carries: that of the wrapped engine error. -/
def JinjaError.message (e : JinjaError) : String :=
  e.original.message

/-- The undefined-variable policy of jinja2.  `renderEmpty` is the default
engine class `Undefined` (missing variables render as empty/absent);
`strict` is `StrictUndefined` (referencing a missing variable fails). -/
inductive UndefinedBehavior where
  | renderEmpty
  | strict
deriving DecidableEq

/-- Loader `jinja2.FileSystemLoader(directory)`. -/
structure FileSystemLoader where
  searchpath : String
deriving DecidableEq

/-- A jinja2 `Environment`: the two constructor arguments the module could
pass.  `jinja2.Environment()` leaves `undefined` at its default, so any
environment the source constructs has `undefined = renderEmpty`. -/
structure Environment where
  loader : Option FileSystemLoader
  undefined : UndefinedBehavior
deriving DecidableEq

/-- An engine error while loading a named template from a loader:
either `TemplateNotFound` or a syntax error in the loaded file. -/
inductive TemplateError where
  | notFound (name : String)
  | badSource (e : TemplateSyntaxError)
deriving DecidableEq

/-- An engine error raised while rendering a compiled template (for
example `UndefinedError` under the strict policy). -/
structure RenderError where
  message : String
deriving DecidableEq

/-- The render context: `**context_dict`, a mapping of string keys to
values (values taken as strings here). -/
def Context := List (String × String)

/-- The abstract jinja2 engine over a template representation `Tpl`:
`from_string` compiles template source within an environment,
`get_template` loads a named template through the loader of the environment,
and `render` evaluates a compiled template against a context. -/
structure JinjaEngine (Tpl : Type) where
  from_string : Environment → String → Except TemplateSyntaxError Tpl
  get_template : Environment → String → Except TemplateError Tpl
  render : Environment → Tpl → Context → Except RenderError String

/-- What `render_from_string` can raise: the own `JinjaError` kind of the tool
(translated at the compile boundary) or an untouched engine render-time
error.  The native engine syntax-error type does not appear. -/
inductive StringRenderError where
  | jinja (e : JinjaError)
  | render (e : RenderError)
deriving DecidableEq

/-- What `render_from_file` can raise: the native engine load error,
untranslated, or an untouched engine render-time error. -/
inductive FileRenderError where
  | engine (e : TemplateError)
  | render (e : RenderError)
deriving DecidableEq

/-- Environment `jinja2.Environment()` as built on line 9: no loader, default
undefined policy. -/
def defaultEnvironment : Environment :=
  { loader := none, undefined := UndefinedBehavior.renderEmpty }

/-- Directory `os.path.dirname(os.path.abspath(__file__))` (line 18): the fixed
directory holding the module itself, resolved at run time; its exact
value is irrelevant to every property below. -/
def this_directory : String := "flo/templates"

/-- The environment built on lines 19-20: a file-system loader rooted at
the own directory of the module, undefined policy left at its default. -/
def fileEnvironment : Environment :=
  { loader := some ⟨this_directory⟩, undefined := UndefinedBehavior.renderEmpty }

/-- Function `render_from_string` (lines 8-14): build a fresh default environment,
compile the string; a `TemplateSyntaxError` is caught and re-raised as
`JinjaError(error)`; on success the compiled template is rendered with
the context (render-time errors are outside the `try` and propagate). -/
def render_from_string {Tpl : Type} (E : JinjaEngine Tpl) (template_string : String)
    (context_dict : Context) : Except StringRenderError String :=
  let env := defaultEnvironment
  match E.from_string env template_string with
  | Except.error error => Except.error (StringRenderError.jinja ⟨error⟩)
  | Except.ok template_obj =>
    match E.render env template_obj context_dict with
    | Except.error e => Except.error (StringRenderError.render e)
    | Except.ok s => Except.ok s

/-- Function `render_from_file` (lines 17-22): build a loader-bound environment
rooted at the directory of the module and load the named template; there
is no `try` anywhere, so load errors propagate as the native engine type. -/
def render_from_file {Tpl : Type} (E : JinjaEngine Tpl) (template_file : String)
    (context_dict : Context) : Except FileRenderError String :=
  match E.get_template fileEnvironment template_file with
  | Except.error e => Except.error (FileRenderError.engine e)
  | Except.ok template_obj =>
    match E.render fileEnvironment template_obj context_dict with
    | Except.error e => Except.error (FileRenderError.render e)
    | Except.ok s => Except.ok s

/-- A small concrete engine used to exercise the statements below on
closed inputs: a template is represented by its source text; the source
text consisting of two opening braces fails to compile with the actual
jinja2 diagnostic, anything else compiles; loading a named template
always fails (the fixed directory ships no templates in the fragment);
rendering echoes the template text, failing exactly under the strict
undefined policy. -/
def toyEngine : JinjaEngine String where
  from_string := fun _ s =>
    if s = "\x7b\x7b" then Except.error ⟨"unexpected end of template"⟩
    else Except.ok s
  get_template := fun _ name => Except.error (TemplateError.notFound name)
  render := fun env t _ =>
    if env.undefined = UndefinedBehavior.strict then Except.error ⟨"undefined"⟩
    else Except.ok t

/-! ## Claims -/

/-- Claim C1, counterexample: on a fresh process, configure a logger and
close it; the second call to `close` also succeeds (returns a world
rather than raising), so double-close is not an error condition. -/
theorem double_close_second_call_succeeds :
    Logger.close (configure ⟨"run.log"⟩ World.initial).1
        (configure ⟨"run.log"⟩ World.initial).2 =
      some ⟨[⟨"run.log", "", true⟩], "", some ⟨0⟩⟩ ∧
    Logger.close (configure ⟨"run.log"⟩ World.initial).1
        ⟨[⟨"run.log", "", true⟩], "", some ⟨0⟩⟩ =
      some ⟨[⟨"run.log", "", true⟩], "", some ⟨0⟩⟩ := by
  exact ⟨rfl, rfl⟩

/-- Claim C1, amended: a second call to `close()` on the same instance
succeeds as a no-op - Python file objects allow `close()` to be called
more than once - leaving the world unchanged and the file closed. -/
theorem close_idempotent (lg : Logger) (w w' : World)
    (h : Logger.close lg w = some w') :
    Logger.close lg w' = some w' := by
  unfold Logger.close at h ⊢
  cases hf : w.files[lg.log_file]? with
  | none => rw [hf] at h; exact absurd h (by simp)
  | some fh =>
    rw [hf] at h
    have hlt : lg.log_file < w.files.length := by
      by_contra hc
      rw [List.getElem?_eq_none (Nat.le_of_not_lt hc)] at hf
      exact absurd hf (by simp)
    simp only [Option.some.injEq] at h
    subst h
    rw [List.getElem?_set_self (by simpa using hlt)]
    simp [List.set_set]

/-- Witness for `close_idempotent` at a concrete closed input. -/
theorem close_idempotent_witness :
    Logger.close ⟨0⟩ ⟨[⟨"run.log", "", true⟩], "", some ⟨0⟩⟩ =
      some ⟨[⟨"run.log", "", true⟩], "", some ⟨0⟩⟩ :=
  close_idempotent ⟨0⟩ ⟨[⟨"run.log", "", false⟩], "", some ⟨0⟩⟩ _ rfl

/-- Claim C2: for every pair of run contexts, `configure(ctx1)` followed
by `configure(ctx2)` returns the same `Logger` instance both times,
leaves the world of the first call untouched, and the table of files ever
opened holds exactly one file, at the log path of `ctx1`. -/
theorem configure_first_writer_wins (tg1 tg2 : TaskGraph) :
    (configure tg2 (configure tg1 World.initial).2).1 =
      (configure tg1 World.initial).1 ∧
    (configure tg2 (configure tg1 World.initial).2).2 =
      (configure tg1 World.initial).2 ∧
    (configure tg2 (configure tg1 World.initial).2).2.files.map FileHandle.path =
      [tg1.abs_log_path] := by
  exact ⟨rfl, rfl, rfl⟩

/-- Claim C3: on an open handle, `write` of text content performs exactly,
and in this order, a terminal write of the content verbatim, a terminal
flush, and a file write of the color-stripped content (the external
`colorless` collaborator applied to the content); the state change is
exactly the corresponding appends to the two sinks, and the call returns
no value beyond its side effects. -/
theorem write_effects (colorless : String → String) (lg : Logger)
    (content : String) (w : World) (fh : FileHandle)
    (hget : w.files[lg.log_file]? = some fh) (hopen : fh.isClosed = false) :
    Logger.write colorless lg (Content.text content) w =
      some ({ w with
                stdout := w.stdout ++ content,
                files := w.files.set lg.log_file
                  { fh with contents := fh.contents ++ colorless content } },
            [Event.termWrite content, Event.termFlush,
             Event.fileWrite lg.log_file (colorless content)]) := by
  simp [Logger.write, Logger.writeText, hget, hopen]

/-- Witness for `write_effects` at a concrete open handle. -/
theorem write_effects_witness :
    Logger.write id ⟨0⟩ (Content.text "hi")
        ⟨[⟨"run.log", "", false⟩], "", some ⟨0⟩⟩ =
      some (⟨[⟨"run.log", "hi", false⟩], "hi", some ⟨0⟩⟩,
            [Event.termWrite "hi", Event.termFlush, Event.fileWrite 0 "hi"]) :=
  write_effects id ⟨0⟩ "hi" ⟨[⟨"run.log", "", false⟩], "", some ⟨0⟩⟩
    ⟨"run.log", "", false⟩ rfl rfl

/-- Claim C4: for every content accepted by `write` - text or bytes - and
every state, `info(content)` has exactly the effect of
`write(content + newline)` on both sinks, where appending the newline is
the Python 2 concatenation with the one-character string (byte 10 on byte
content). -/
theorem info_eq_write_newline (colorless : String → String) (lg : Logger)
    (content : Content) (w : World) :
    Logger.info colorless lg content w =
      Logger.write colorless lg content.appendNewline w := rfl

/-- Claim C5: whenever the engine reports a syntax error while compiling
the template string, `render_from_string` raises the own `JinjaError`
kind of the tool - not the native engine error type - wrapping the
original error, whose message it carries verbatim (hence non-empty when
the original message is); and when the template compiles and renders, the
rendered text is returned. -/
theorem render_from_string_translates {Tpl : Type} (E : JinjaEngine Tpl)
    (template_string : String) (context_dict : Context) :
    (∀ error : TemplateSyntaxError,
        E.from_string defaultEnvironment template_string = Except.error error →
          render_from_string E template_string context_dict =
            Except.error (StringRenderError.jinja ⟨error⟩) ∧
          JinjaError.message ⟨error⟩ = error.message ∧
          (error.message ≠ "" → JinjaError.message ⟨error⟩ ≠ "")) ∧
    (∀ (t : Tpl) (s : String),
        E.from_string defaultEnvironment template_string = Except.ok t →
        E.render defaultEnvironment t context_dict = Except.ok s →
        render_from_string E template_string context_dict = Except.ok s) := by
  constructor
  · intro error herr
    exact ⟨by simp [render_from_string, herr], rfl, fun hne => hne⟩
  · intro t s ht hs
    simp [render_from_string, ht, hs]

/-- Witness for `render_from_string_translates`: the two-brace template
fails to compile on the concrete engine and the translated error comes
back wrapping the original diagnostic. -/
theorem render_from_string_translates_witness :
    render_from_string toyEngine "\x7b\x7b" [] =
      Except.error (StringRenderError.jinja ⟨⟨"unexpected end of template"⟩⟩) :=
  ((render_from_string_translates toyEngine "\x7b\x7b" []).1
    ⟨"unexpected end of template"⟩ rfl).1

/-- Claim C6: whenever loading the named template fails,
`render_from_file` propagates the native engine error untranslated: the
result carries the engine error value unchanged, and the error type of
`render_from_file` has no translated-`JinjaError` alternative at all,
unlike the string-rendering path. -/
theorem render_from_file_no_translation {Tpl : Type} (E : JinjaEngine Tpl)
    (template_file : String) (context_dict : Context) (e : TemplateError)
    (h : E.get_template fileEnvironment template_file = Except.error e) :
    render_from_file E template_file context_dict =
      Except.error (FileRenderError.engine e) := by
  simp [render_from_file, h]

/-- Witness for `render_from_file_no_translation` at a concrete missing
template name. -/
theorem render_from_file_no_translation_witness :
    render_from_file toyEngine "missing.html" [] =
      Except.error (FileRenderError.engine (TemplateError.notFound "missing.html")) :=
  render_from_file_no_translation toyEngine "missing.html" []
    (TemplateError.notFound "missing.html") rfl

/-- Claim C9: neither rendering function configures a strict-undefined
policy - both environments built by the source leave the undefined
behavior at the engine default - so, for any engine honoring the default
jinja2 contract (rendering under the default policy never fails on
missing variables), `render_from_string` on any template that compiles,
with any context (missing keys included), returns text without raising. -/
theorem render_default_undefined {Tpl : Type} (E : JinjaEngine Tpl)
    (template_string : String) (context_dict : Context)
    (hengine : ∀ (env : Environment) (t : Tpl) (c : Context),
        env.undefined = UndefinedBehavior.renderEmpty →
        ∃ s, E.render env t c = Except.ok s)
    (t : Tpl)
    (hcompile : E.from_string defaultEnvironment template_string = Except.ok t) :
    defaultEnvironment.undefined = UndefinedBehavior.renderEmpty ∧
    fileEnvironment.undefined = UndefinedBehavior.renderEmpty ∧
    ∃ s, render_from_string E template_string context_dict = Except.ok s := by
  obtain ⟨s, hs⟩ := hengine defaultEnvironment t context_dict rfl
  exact ⟨rfl, rfl, s, by simp [render_from_string, hcompile, hs]⟩

/-- Witness for `render_default_undefined`: a template referencing a
missing variable, rendered with an empty context on the concrete engine,
succeeds. -/
theorem render_default_undefined_witness :
    defaultEnvironment.undefined = UndefinedBehavior.renderEmpty ∧
    fileEnvironment.undefined = UndefinedBehavior.renderEmpty ∧
    ∃ s, render_from_string toyEngine "\x7b\x7b missing \x7d\x7d" [] =
      Except.ok s :=
  render_default_undefined toyEngine "\x7b\x7b missing \x7d\x7d" []
    (fun env t c h => ⟨t, by simp [toyEngine, h]⟩)
    "\x7b\x7b missing \x7d\x7d" rfl

/-- Claim C7: byte content that decodes to text under the default codec
is written with exactly the same effect - on the terminal sink, the file
sink and the event trace alike - as the decoded text. -/
theorem write_bytes_eq_write_text (colorless : String → String) (lg : Logger)
    (b : List Nat) (t : String) (w : World)
    (hdec : decodeDefault b = some t) :
    Logger.write colorless lg (Content.bytes b) w =
      Logger.write colorless lg (Content.text t) w := by
  simp [Logger.write, hdec]

/-- Witness for `write_bytes_eq_write_text` on the bytes 97, 98, 99 and
the text they decode to. -/
theorem write_bytes_eq_write_text_witness :
    decodeDefault [97, 98, 99] = some "abc" ∧
    Logger.write id ⟨0⟩ (Content.bytes [97, 98, 99])
        ⟨[⟨"run.log", "", false⟩], "", some ⟨0⟩⟩ =
      Logger.write id ⟨0⟩ (Content.text "abc")
        ⟨[⟨"run.log", "", false⟩], "", some ⟨0⟩⟩ :=
  ⟨by decide, write_bytes_eq_write_text id ⟨0⟩ [97, 98, 99] "abc"
    ⟨[⟨"run.log", "", false⟩], "", some ⟨0⟩⟩ (by decide)⟩

/-- Claim C8: `get` never constructs a logger - it is a pure observation
of the singleton slot: on the fresh process state it returns the explicit
absent value, and after any `configure` call on any state it returns
exactly the instance that `configure` stored and returned. -/
theorem get_never_constructs :
    get World.initial = none ∧
    ∀ (tg : TaskGraph) (w : World),
      get (configure tg w).2 = some (configure tg w).1 := by
  refine ⟨rfl, fun tg w => ?_⟩
  cases hl : w.logger with
  | none => simp [configure, get, hl, Logger.construct, openFile]
  | some lg => simp [configure, get, hl]

/-- Claim C10: closing the configured logger never clears the singleton
slot: after `close` succeeds, `get` still returns the same (now closed)
instance, and a later `configure` with any run context returns that
instance with the world unchanged - no new logger is constructed and the
table of files ever opened still holds only the original log file. -/
theorem close_preserves_singleton (tg tg2 : TaskGraph) :
    ∃ w2 : World,
      Logger.close (configure tg World.initial).1
          (configure tg World.initial).2 = some w2 ∧
      get w2 = some (configure tg World.initial).1 ∧
      configure tg2 w2 = ((configure tg World.initial).1, w2) ∧
      w2.files.map FileHandle.path = [tg.abs_log_path] := by
  exact ⟨_, rfl, rfl, rfl, rfl⟩

end Flo
